import Mathlib

/-!
Verification of the change-scoped lint/format engine of the `darker`
repository.  The linting subsystem (`darker/linting.py`) and its
collaborators (`darker/git.py`, `darker/utils.py`) are not present in the
source tree that was provided; definitions for them are modelled from the
specification, as indicated in each doc comment.  `darker/fstring.py` is
present and its definitions are translated directly from the source.
-/

namespace Darker

/-- Modelled from the spec: the synthetic worktree marker used as `rev2`
when linting the files currently on disk (spec §3, and the literal
`":WORKTREE:"` appearing in `tests/test_linting.py`). -/
def WORKTREE : String := ":WORKTREE:"

/-- Modelled from the spec (§3): a resolved revision range `(rev1, rev2)`,
where `rev2` may be the synthetic worktree marker. -/
structure RevisionRange where
  rev1 : String
  rev2 : String
deriving DecidableEq

/-- Modelled from the spec (§3): the classification of a diff chunk. -/
inductive ChunkKind where
  | equal
  | replace
  | insert
  | delete
deriving DecidableEq

/-- Modelled from the spec (§3): a contiguous span of a line diff with its
old- and new-side 1-based offsets and line counts, plus the lines
themselves. -/
structure DiffChunk where
  kind : ChunkKind
  oldStart : Nat
  oldCount : Nat
  newStart : Nat
  newCount : Nat
  oldLines : List String
  newLines : List String
deriving DecidableEq

/-- Length of the longest common prefix of two line lists. -/
def commonPrefixLen : List String → List String → Nat
  | a :: as, b :: bs => if a = b then commonPrefixLen as bs + 1 else 0
  | _, _ => 0

/-- Length of the longest common suffix of two line lists. -/
def commonSuffixLen (xs ys : List String) : Nat :=
  commonPrefixLen xs.reverse ys.reverse

/-- Modelled from the spec (§4.2): parse a line-level diff of two documents
into an ordered sequence of chunks.  The external line-diff collaborator is
realised by a common-prefix / common-suffix split: the shared leading lines
form an EQUAL chunk, the shared trailing lines form an EQUAL chunk, and the
differing middle is a single REPLACE / INSERT / DELETE chunk.  EQUAL chunks
are retained; empty old content yields one INSERT chunk covering the whole
new content, and identical contents yield a single EQUAL chunk. -/
def diffChunks (old new : List String) : List DiffChunk :=
  let p := commonPrefixLen old new
  let oldR := old.drop p
  let newR := new.drop p
  let s := commonSuffixLen oldR newR
  let oldM := oldR.take (oldR.length - s)
  let newM := newR.take (newR.length - s)
  let pre : List DiffChunk :=
    if p = 0 then [] else
      [⟨ChunkKind.equal, 1, p, 1, p, old.take p, new.take p⟩]
  let midKind : ChunkKind :=
    if oldM = [] then ChunkKind.insert
    else if newM = [] then ChunkKind.delete
    else ChunkKind.replace
  let mid : List DiffChunk :=
    if oldM = [] ∧ newM = [] then [] else
      [⟨midKind, p + 1, oldM.length, p + 1, newM.length, oldM, newM⟩]
  let suf : List DiffChunk :=
    if s = 0 then [] else
      [⟨ChunkKind.equal, p + oldM.length + 1, s, p + newM.length + 1, s,
        oldR.drop (oldR.length - s), newR.drop (newR.length - s)⟩]
  pre ++ mid ++ suf

/-- Modelled from the spec (§4.3): the new-side line numbers contributed by
one chunk — every line of a non-EQUAL chunk, nothing for an EQUAL chunk. -/
def chunkEditedLines (c : DiffChunk) : List Nat :=
  match c.kind with
  | ChunkKind.equal => []
  | _ => List.range' c.newStart c.newCount

/-- Modelled from the spec (§4.3): the edited-line set of a file.  `old` is
the `rev1` content obtained from the version-control collaborator, `none`
when the path did not exist at `rev1` (treated as empty content, not as an
error).  For every non-EQUAL chunk the new-side lines
`new_start .. new_start + new_count - 1` are collected; `contextLines`
symmetrically extends each edited span, clipped to file boundaries, and
`contextLines = 0` means exact changed lines only. -/
def editedLinenums (old : Option (List String)) (new : List String)
    (contextLines : Nat) : List Nat :=
  let oldLines := old.getD []
  let exact := (diffChunks oldLines new).flatMap chunkEditedLines
  if contextLines = 0 then exact
  else (List.range' 1 new.length).filter
    (fun n => exact.any (fun e => e ≤ n + contextLines ∧ n ≤ e + contextLines))

/-- Value of a list of decimal digit characters. -/
def digitsVal (ds : List Char) : Nat :=
  ds.foldl (fun n c => 10 * n + (c.toNat - 48)) 0

/-- Modelled from the spec (§3, §6): parse one line of linter stdout
(trailing newline already removed by the streaming collaborator) against
the contract regex `^(?P<path>[^:]+):(?P<line>\d+)(:(?P<col>\d+))?:\s*(?P<message>.*)$`,
with the regex's greedy/backtracking semantics: the optional column group
participates only when a nonempty digit run after the second colon is
itself followed by a colon.  The result is the parsed
`(path, line, location-prefix, message)`; `none` when the line has no
recognizable leading `path:line[:col]:` prefix. -/
def parseDiagChars (cs : List Char) : Option (String × Nat × String × String) :=
  let path := cs.takeWhile (fun c => c ≠ ':')
  if path.isEmpty then none else
  match cs.dropWhile (fun c => c ≠ ':') with
  | ':' :: r1 =>
    let d1 := r1.takeWhile Char.isDigit
    if d1.isEmpty then none else
    match r1.dropWhile Char.isDigit with
    | ':' :: r3 =>
      let d2 := r3.takeWhile Char.isDigit
      match d2.isEmpty, r3.dropWhile Char.isDigit with
      | false, ':' :: r5 =>
        some (String.mk path, digitsVal d1,
          String.mk (path ++ ':' :: d1 ++ ':' :: d2 ++ [':']),
          String.mk (r5.dropWhile Char.isWhitespace))
      | _, _ =>
        some (String.mk path, digitsVal d1,
          String.mk (path ++ ':' :: d1 ++ [':']),
          String.mk (r3.dropWhile Char.isWhitespace))
    | _ => none
  | _ => none

/-- Modelled from the spec (§3, §6): parse one line of linter stdout. -/
def parseDiag (line : String) : Option (String × Nat × String × String) :=
  parseDiagChars line.data

/-- Modelled from the spec (§3) and the tests: `_parse_linter_line` — the
parse result, or the empty placeholder tuple (empty path, line 0, empty
prefix, empty message) when the line is not a recognizable diagnostic. -/
def parse_linter_line (line : String) : String × Nat × String × String :=
  (parseDiag line).getD ("", 0, "", "")

/-- Modelled from the spec (§7): the fatal failure kinds of a linter
invocation that the claims mention. -/
inductive LintError where
  | notImplementedError
deriving DecidableEq

/-- Modelled from the spec (§4.4): everything one `run_linter` invocation
produces — the lines written to the output stream, the warnings logged, and
the count of retained diagnostics. -/
structure LintResult where
  output : List String
  warnings : List String
  count : Nat
deriving DecidableEq

/-- Modelled from the spec (§4.4): whether a blank separator line is
written before a retained diagnostic on `path`/`line`: before the very
first retained diagnostic, and before any diagnostic that is not
immediately adjacent (same line or next line, same file) to the previously
retained one. -/
def blankBefore (prev : Option (String × Nat)) (path : String) (line : Nat) : Bool :=
  match prev with
  | none => true
  | some (p, l) => !(p == path && (line == l || line == l + 1))

/-- Modelled from the spec (§4.4): process the captured linter stdout lines
one by one.  `wt` is the on-disk worktree content collaborator (`none` for
a file missing from the working tree), `rc` the `rev1`-content collaborator
(`none` for a path absent at `rev1`), `prev` the file/line of the
previously retained diagnostic.  Unparseable lines are dropped silently; a
diagnostic on a file missing from the worktree is dropped with a warning;
a diagnostic whose line is not in the edited-line set (context 0) of its
file is dropped; a retained diagnostic is written as its location prefix
and message, preceded by a blank line when it starts a new block. -/
def lintLines (wt rc : String → Option (List String)) :
    Option (String × Nat) → List String → LintResult
  | _, [] => ⟨[], [], 0⟩
  | prev, l :: rest =>
    match parseDiag l with
    | none => lintLines wt rc prev rest
    | some (path, line, loc, msg) =>
      match wt path with
      | none =>
        let r := lintLines wt rc prev rest
        ⟨r.output, ("Missing file " ++ path) :: r.warnings, r.count⟩
      | some content =>
        if (editedLinenums (rc path) content 0).contains line then
          let r := lintLines wt rc (some (path, line)) rest
          ⟨(if blankBefore prev path line then [""] else []) ++
              (loc ++ " " ++ msg) :: r.output,
            r.warnings, r.count + 1⟩
        else lintLines wt rc prev rest

/-- Modelled from the spec (§4.4): `run_linter`.  Fails with the
`NotImplementedError` kind when `rev2` of the revision range is not the
worktree marker, producing no output at all; otherwise processes the
linter's streamed stdout (`stdout`, provided by the external-process
collaborator) and returns the output lines, warnings and retained count. -/
def run_linter (revisionRange : RevisionRange)
    (wt rc : String → Option (List String)) (stdout : List String) :
    Except LintError LintResult :=
  if revisionRange.rev2 = WORKTREE then
    Except.ok (lintLines wt rc none stdout)
  else
    Except.error LintError.notImplementedError

/-- Modelled from the spec (§4.4): `run_linters` runs each command line
through `run_linter` in sequence (`stdoutOf` gives the stdout stream the
external process of each command line produces) and returns the sum of the
per-linter retained-diagnostic counts. -/
def run_linters (cmdlines : List String)
    (wt rc : String → Option (List String)) (stdoutOf : String → List String)
    (revisionRange : RevisionRange) : Except LintError Nat :=
  match cmdlines with
  | [] => Except.ok 0
  | c :: rest => do
    let r ← run_linter revisionRange wt rc (stdoutOf c)
    let n ← run_linters rest wt rc stdoutOf revisionRange
    Except.ok (r.count + n)

/-- The diagnostics of a linter stdout stream that the spec says survive:
parseable, referencing a file present in the worktree, and on a line that
is a member of the edited-line set (context 0) of that file.  This follows
the spec's words (§4.4) and is compared against `lintLines`. -/
def retainedDiags (wt rc : String → Option (List String)) :
    List String → List (String × Nat × String × String)
  | [] => []
  | l :: rest =>
    match parseDiag l with
    | none => retainedDiags wt rc rest
    | some (path, line, loc, msg) =>
      match wt path with
      | none => retainedDiags wt rc rest
      | some content =>
        if (editedLinenums (rc path) content 0).contains line then
          (path, line, loc, msg) :: retainedDiags wt rc rest
        else retainedDiags wt rc rest

/-- How one retained diagnostic is rendered on the output stream: the
linter's own location prefix, a space, and the message text. -/
def renderDiag (x : String × Nat × String × String) : String :=
  x.2.2.1 ++ " " ++ x.2.2.2

/-- The spec's description (§4.4) of the output stream: the retained
diagnostics in order, a blank line before the first one and before each
one that is not immediately adjacent to its predecessor in the same
file. -/
def renderWithSeparators :
    Option (String × Nat) → List (String × Nat × String × String) → List String
  | _, [] => []
  | prev, x :: rest =>
    (if blankBefore prev x.1 x.2.1 then [""] else []) ++
      renderDiag x :: renderWithSeparators (some (x.1, x.2.1)) rest

/-- Modelled from the spec (§3): newline style of a text document. -/
inductive Newline where
  | lf
  | crlf
deriving DecidableEq

/-- The raw string of a newline style. -/
def Newline.str : Newline → String
  | Newline.lf => "\n"
  | Newline.crlf => "\r\n"

/-- Modelled from the spec (§3): immutable text-content value with
encoding, newline and mtime metadata (`darker/utils.py` is not in src/).
`lines` holds one string per source line without its trailing newline. -/
structure TextDocument where
  lines : List String
  encoding : String
  newline : Newline
  mtime : Option Nat
deriving DecidableEq

/-- Modelled from the spec (§3): reconstruct the raw string of the
document from its lines, newline style appended to each line. -/
def TextDocument.string (d : TextDocument) : String :=
  String.join (d.lines.map (fun l => l ++ d.newline.str))

/-- Modelled from the spec (§3): construct a document from a raw string,
detecting the newline style and splitting into lines (the final empty
segment of a newline-terminated string is not a line). -/
def TextDocument.from_str (s : String) (encoding : String)
    (mtime : Option Nat) : TextDocument :=
  let nl := if s.contains '\r' then Newline.crlf else Newline.lf
  let parts := s.splitOn nl.str
  let ls := if parts.getLast? = some "" then parts.dropLast else parts
  ⟨ls, encoding, nl, mtime⟩

/-- Modelled from `darker/exceptions.py` (not in src/): the error raised
when an optional package required by a selected option is missing. -/
inductive DarkerError where
  | missingPackageError (msg : String)
deriving DecidableEq

/-- From `src/darker/fstring.py`: the fake
`flynt.process.fstringify_code_by_line` bound when the optional `flynt`
package is not installed; it raises `MissingPackageError` when invoked.
The real flynt function returns the transformed source and an edit count,
hence the `String × Nat` success type. -/
def flynt_fstringify_code_by_line (_code : String) :
    Except DarkerError (String × Nat) :=
  Except.error (DarkerError.missingPackageError
    ("No module named 'flynt'. Please install the 'flynt' package before using"
      ++ " the --flynt / -i option."))

/-- Modelled from the spec (§4.3): the `EditedLinenumsDiffer` collaborator
(`darker/git.py` is not in src/), carrying the capability of retrieving a
path's content at `rev1` (`none` when the path did not exist there). -/
structure EditedLinenumsDiffer where
  rev1Content : String → Option (List String)

/-- Modelled from the spec (§4.3): `revision_vs_lines` — the edited-line
set of an in-memory candidate `content` for `src`, diffed against the
`rev1` content. -/
def EditedLinenumsDiffer.revision_vs_lines (d : EditedLinenumsDiffer)
    (src : String) (content : TextDocument) (context_lines : Nat) : List Nat :=
  editedLinenums (d.rev1Content src) content.lines context_lines

/-- From `src/darker/fstring.py`: `_call_flynt_fstringify` — call the
fstringify function on the document's raw string and wrap the result in a
new `TextDocument` with the original encoding and mtime. -/
def _call_flynt_fstringify
    (fstringify : String → Except DarkerError (String × Nat))
    (content : TextDocument) : Except DarkerError TextDocument :=
  (fstringify content.string).map
    (fun r => TextDocument.from_str r.1 content.encoding content.mtime)

/-- From `src/darker/fstring.py`: `apply_flynt` — return the content
unchanged when `src` matches an exclude pattern or when the edited-line
set versus `rev1` (context 0) is empty; otherwise run the fstringify
transform.  `fstringify` stands for the module-level binding
`flynt_fstringify_code_by_line` and `glob_any` for the helper from
`darker/utils.py` (not in src/ and not described by the spec), both kept
abstract as parameters. -/
def apply_flynt (fstringify : String → Except DarkerError (String × Nat))
    (glob_any : String → List String → Bool)
    (content : TextDocument) (src : String) (exclude : List String)
    (edited_linenums_differ : EditedLinenumsDiffer) :
    Except DarkerError TextDocument :=
  if glob_any src exclude then Except.ok content
  else if (edited_linenums_differ.revision_vs_lines src content 0).isEmpty then
    Except.ok content
  else _call_flynt_fstringify fstringify content

/-- Test fixture: the worktree of the spec's concrete scenario — `test.py`
rewritten on disk from "1\n2\n" to "one\n2\n". -/
def wtTest : String → Option (List String) :=
  fun p => if p = "test.py" then some ["one", "2"] else none

/-- Test fixture: the `rev1` (HEAD) content of the concrete scenario —
`test.py` committed as "1\n2\n". -/
def rcTest : String → Option (List String) :=
  fun p => if p = "test.py" then some ["1", "2"] else none

/-- Test fixture: a worktree containing only the new file `file2.py` with
content "1\n2\n". -/
def wtNew : String → Option (List String) :=
  fun p => if p = "file2.py" then some ["1", "2"] else none

/-- Test fixture: a `rev1` collaborator at which no path exists. -/
def rcNew : String → Option (List String) :=
  fun _ => none

/-- Test fixture: the worktree of the line-separation scenario — `a.py`
fully rewritten to six lines "a".."f". -/
def wtSep : String → Option (List String) :=
  fun p => if p = "a.py" then some ["a", "b", "c", "d", "e", "f"] else none

/-- Test fixture: the `rev1` content of the line-separation scenario —
`a.py` committed as six lines "1".."6". -/
def rcSep : String → Option (List String) :=
  fun p => if p = "a.py" then some ["1", "2", "3", "4", "5", "6"] else none

/-- Test fixture: a one-line text document. -/
def docA : TextDocument :=
  ⟨["x = 1"], "utf-8", Newline.lf, none⟩

/-- Test fixture: a differ whose `rev1` content of every path equals
`docA`'s lines, so `docA` has no edited lines. -/
def differSame : EditedLinenumsDiffer :=
  ⟨fun _ => some docA.lines⟩

/-- Test fixture: a differ at whose `rev1` no path exists, so every line
of every document is edited. -/
def differNew : EditedLinenumsDiffer :=
  ⟨fun _ => none⟩

/-- Unfolding `lintLines` on an unparseable stdout line: dropped silently. -/
theorem lintLines_cons_none (wt rc : String → Option (List String))
    (prev : Option (String × Nat)) (l : String) (rest : List String)
    (h : parseDiag l = none) :
    lintLines wt rc prev (l :: rest) = lintLines wt rc prev rest := by
  rw [lintLines, h]

/-- Unfolding `lintLines` on a diagnostic for a file missing from the
worktree: a warning is logged and the diagnostic contributes nothing. -/
theorem lintLines_cons_missing (wt rc : String → Option (List String))
    (prev : Option (String × Nat)) (l : String) (rest : List String)
    (path : String) (line : Nat) (loc msg : String)
    (hp : parseDiag l = some (path, line, loc, msg))
    (hw : wt path = none) :
    lintLines wt rc prev (l :: rest) =
      ⟨(lintLines wt rc prev rest).output,
        ("Missing file " ++ path) :: (lintLines wt rc prev rest).warnings,
        (lintLines wt rc prev rest).count⟩ := by
  rw [lintLines, hp]
  simp only [hw]

/-- Unfolding `lintLines` on a diagnostic whose line is in the edited-line
set of its file: it is rendered, preceded by a blank line when it starts a
new block. -/
theorem lintLines_cons_retained (wt rc : String → Option (List String))
    (prev : Option (String × Nat)) (l : String) (rest : List String)
    (path : String) (line : Nat) (loc msg : String) (content : List String)
    (hp : parseDiag l = some (path, line, loc, msg))
    (hw : wt path = some content)
    (he : (editedLinenums (rc path) content 0).contains line = true) :
    lintLines wt rc prev (l :: rest) =
      ⟨(if blankBefore prev path line then [""] else []) ++
          (loc ++ " " ++ msg) :: (lintLines wt rc (some (path, line)) rest).output,
        (lintLines wt rc (some (path, line)) rest).warnings,
        (lintLines wt rc (some (path, line)) rest).count + 1⟩ := by
  rw [lintLines, hp]
  simp only [hw, he, if_true]

/-- Unfolding `lintLines` on a diagnostic whose line is not in the
edited-line set of its file: it is discarded. -/
theorem lintLines_cons_dropped (wt rc : String → Option (List String))
    (prev : Option (String × Nat)) (l : String) (rest : List String)
    (path : String) (line : Nat) (loc msg : String) (content : List String)
    (hp : parseDiag l = some (path, line, loc, msg))
    (hw : wt path = some content)
    (he : (editedLinenums (rc path) content 0).contains line = false) :
    lintLines wt rc prev (l :: rest) = lintLines wt rc prev rest := by
  rw [lintLines, hp]
  simp only [hw, he, Bool.false_eq_true, if_false]

/-- Unfolding `retainedDiags` on an unparseable line. -/
theorem retainedDiags_cons_none (wt rc : String → Option (List String))
    (l : String) (rest : List String) (h : parseDiag l = none) :
    retainedDiags wt rc (l :: rest) = retainedDiags wt rc rest := by
  rw [retainedDiags, h]

/-- Unfolding `retainedDiags` on a diagnostic for a missing file. -/
theorem retainedDiags_cons_missing (wt rc : String → Option (List String))
    (l : String) (rest : List String)
    (path : String) (line : Nat) (loc msg : String)
    (hp : parseDiag l = some (path, line, loc, msg))
    (hw : wt path = none) :
    retainedDiags wt rc (l :: rest) = retainedDiags wt rc rest := by
  rw [retainedDiags, hp]
  simp only [hw]

/-- Unfolding `retainedDiags` on a diagnostic on an edited line. -/
theorem retainedDiags_cons_retained (wt rc : String → Option (List String))
    (l : String) (rest : List String)
    (path : String) (line : Nat) (loc msg : String) (content : List String)
    (hp : parseDiag l = some (path, line, loc, msg))
    (hw : wt path = some content)
    (he : (editedLinenums (rc path) content 0).contains line = true) :
    retainedDiags wt rc (l :: rest) =
      (path, line, loc, msg) :: retainedDiags wt rc rest := by
  rw [retainedDiags, hp]
  simp only [hw, he, if_true]

/-- Unfolding `retainedDiags` on a diagnostic on a non-edited line. -/
theorem retainedDiags_cons_dropped (wt rc : String → Option (List String))
    (l : String) (rest : List String)
    (path : String) (line : Nat) (loc msg : String) (content : List String)
    (hp : parseDiag l = some (path, line, loc, msg))
    (hw : wt path = some content)
    (he : (editedLinenums (rc path) content 0).contains line = false) :
    retainedDiags wt rc (l :: rest) = retainedDiags wt rc rest := by
  rw [retainedDiags, hp]
  simp only [hw, he, Bool.false_eq_true, if_false]

/-- The output stream produced by `lintLines` is exactly the spec-side
retained diagnostics rendered with blank separators. -/
theorem lintLines_output (wt rc : String → Option (List String))
    (prev : Option (String × Nat)) (stdout : List String) :
    (lintLines wt rc prev stdout).output =
      renderWithSeparators prev (retainedDiags wt rc stdout) := by
  induction stdout generalizing prev with
  | nil => rfl
  | cons l rest ih =>
    cases hp : parseDiag l with
    | none =>
      rw [lintLines_cons_none wt rc prev l rest hp,
        retainedDiags_cons_none wt rc l rest hp]
      exact ih prev
    | some x =>
      obtain ⟨path, line, loc, msg⟩ := x
      cases hw : wt path with
      | none =>
        rw [lintLines_cons_missing wt rc prev l rest path line loc msg hp hw,
          retainedDiags_cons_missing wt rc l rest path line loc msg hp hw]
        exact ih prev
      | some content =>
        cases he : (editedLinenums (rc path) content 0).contains line with
        | true =>
          rw [lintLines_cons_retained wt rc prev l rest path line loc msg content hp hw he,
            retainedDiags_cons_retained wt rc l rest path line loc msg content hp hw he]
          simp only [renderWithSeparators, renderDiag]
          rw [ih (some (path, line))]
        | false =>
          rw [lintLines_cons_dropped wt rc prev l rest path line loc msg content hp hw he,
            retainedDiags_cons_dropped wt rc l rest path line loc msg content hp hw he]
          exact ih prev

/-- The count returned by `lintLines` is the number of spec-side retained
diagnostics. -/
theorem lintLines_count (wt rc : String → Option (List String))
    (prev : Option (String × Nat)) (stdout : List String) :
    (lintLines wt rc prev stdout).count =
      (retainedDiags wt rc stdout).length := by
  induction stdout generalizing prev with
  | nil => rfl
  | cons l rest ih =>
    cases hp : parseDiag l with
    | none =>
      rw [lintLines_cons_none wt rc prev l rest hp,
        retainedDiags_cons_none wt rc l rest hp]
      exact ih prev
    | some x =>
      obtain ⟨path, line, loc, msg⟩ := x
      cases hw : wt path with
      | none =>
        rw [lintLines_cons_missing wt rc prev l rest path line loc msg hp hw,
          retainedDiags_cons_missing wt rc l rest path line loc msg hp hw]
        exact ih prev
      | some content =>
        cases he : (editedLinenums (rc path) content 0).contains line with
        | true =>
          rw [lintLines_cons_retained wt rc prev l rest path line loc msg content hp hw he,
            retainedDiags_cons_retained wt rc l rest path line loc msg content hp hw he]
          simp only [List.length_cons]
          rw [ih (some (path, line))]
        | false =>
          rw [lintLines_cons_dropped wt rc prev l rest path line loc msg content hp hw he,
            retainedDiags_cons_dropped wt rc l rest path line loc msg content hp hw he]
          exact ih prev

/-- A rendered diagnostic is never the empty string: it always contains the
separating space between the location prefix and the message. -/
theorem renderDiag_ne_empty (x : String × Nat × String × String) :
    renderDiag x ≠ "" := by
  intro h
  have hlen := congrArg String.length h
  simp only [renderDiag, String.length_append] at hlen
  rw [show (" " : String).length = 1 from rfl,
    show ("" : String).length = 0 from rfl] at hlen
  omega

/-- Removing the blank separator lines from a rendered block sequence
leaves exactly the rendered diagnostics, in order. -/
theorem renderWithSeparators_filter (prev : Option (String × Nat))
    (ds : List (String × Nat × String × String)) :
    (renderWithSeparators prev ds).filter (fun s => s ≠ "") =
      ds.map renderDiag := by
  induction ds generalizing prev with
  | nil => rfl
  | cons x rest ih =>
    by_cases hb : blankBefore prev x.1 x.2.1
    · simp [renderWithSeparators, hb, List.filter_cons, renderDiag_ne_empty x]
      simpa using ih (some (x.1, x.2.1))
    · simp [renderWithSeparators, hb, List.filter_cons, renderDiag_ne_empty x]
      simpa using ih (some (x.1, x.2.1))

/-- For a file absent at `rev1` the old content is treated as empty, so
every line of the new content is edited. -/
theorem editedLinenums_new_file (content : List String) :
    editedLinenums none content 0 = List.range' 1 content.length := by
  cases content with
  | nil => rfl
  | cons a as =>
    simp [editedLinenums, diffChunks, commonPrefixLen, commonSuffixLen,
      chunkEditedLines, List.take_length]

/-- Membership in a `range'` via the boolean `contains`. -/
theorem contains_range' (s n m : Nat) :
    (List.range' s n).contains m = true ↔ s ≤ m ∧ m < s + n := by
  rw [show (List.range' s n).contains m = List.elem m (List.range' s n) from rfl,
    List.elem_iff]
  exact List.mem_range'_1

/-- C1: with `rev2 = WORKTREE`, `run_linter` succeeds, and the non-blank
lines it writes to the output stream are exactly the parsed diagnostics
whose line number is a member of the edited-line set (context 0) of their
path (among the files present in the worktree), rendered with the linter's
location prefix and message text unchanged; a diagnostic whose line is not
in the edited-line set never appears in the output. -/
theorem run_linter_retains_exactly_edited (rev1 : String)
    (wt rc : String → Option (List String)) (stdout : List String) :
    run_linter ⟨rev1, WORKTREE⟩ wt rc stdout =
      Except.ok (lintLines wt rc none stdout) ∧
    (lintLines wt rc none stdout).output.filter (fun s => s ≠ "") =
      (retainedDiags wt rc stdout).map renderDiag := by
  constructor
  · rfl
  · rw [lintLines_output wt rc none stdout]
    exact renderWithSeparators_filter none (retainedDiags wt rc stdout)

/-- C2: `run_linter` returns the number of retained diagnostics; in the
concrete scenario of `test.py` committed as "1\n2\n" and rewritten on disk
to "one\n2\n" (only line 1 changed), a stub linter reporting `test.py:1:`
yields return value 1 and a stub reporting `test.py:2:` yields 0, for the
revision range HEAD → WORKTREE. -/
theorem run_linter_return_value :
    (∀ (rev1 : String) (wt rc : String → Option (List String))
      (stdout : List String),
      run_linter ⟨rev1, WORKTREE⟩ wt rc stdout =
        Except.ok (lintLines wt rc none stdout) ∧
      (lintLines wt rc none stdout).count =
        (retainedDiags wt rc stdout).length) ∧
    run_linter ⟨"HEAD", WORKTREE⟩ wtTest rcTest ["test.py:1: test.py"] =
      Except.ok ⟨["", "test.py:1: test.py"], [], 1⟩ ∧
    run_linter ⟨"HEAD", WORKTREE⟩ wtTest rcTest ["test.py:2: test.py"] =
      Except.ok ⟨[], [], 0⟩ := by
  refine ⟨fun rev1 wt rc stdout => ⟨rfl, lintLines_count wt rc none stdout⟩, ?_, ?_⟩
  · rfl
  · rfl

/-- C3: `run_linters` runs `run_linter` once per command line, in the
given order, and returns exactly the sum of the individual per-linter
retained-diagnostic counts; in particular an empty command-line sequence
gives 0. -/
theorem run_linters_sums_counts (cmdlines : List String) (rev1 : String)
    (wt rc : String → Option (List String)) (stdoutOf : String → List String) :
    run_linters cmdlines wt rc stdoutOf ⟨rev1, WORKTREE⟩ =
      Except.ok
        ((cmdlines.map
          (fun c => (lintLines wt rc none (stdoutOf c)).count)).sum) := by
  induction cmdlines with
  | nil => rfl
  | cons c rest ih =>
    rw [run_linters,
      show run_linter ⟨rev1, WORKTREE⟩ wt rc (stdoutOf c) =
          Except.ok (lintLines wt rc none (stdoutOf c)) from rfl,
      ih]
    rfl

/-- C4: `run_linter` fails with the `NotImplementedError` kind and
produces no diagnostic output whenever `rev2` of the revision range is not
the WORKTREE marker; when `rev2` is the WORKTREE marker this failure never
occurs. -/
theorem run_linter_requires_worktree (revisionRange : RevisionRange)
    (wt rc : String → Option (List String)) (stdout : List String) :
    (revisionRange.rev2 ≠ WORKTREE →
      run_linter revisionRange wt rc stdout =
        Except.error LintError.notImplementedError) ∧
    (revisionRange.rev2 = WORKTREE →
      run_linter revisionRange wt rc stdout =
        Except.ok (lintLines wt rc none stdout)) := by
  constructor
  · intro h
    rw [run_linter, if_neg h]
  · intro h
    rw [run_linter, if_pos h]

/-- Witness for C4 at concrete revision ranges. -/
theorem run_linter_requires_worktree_witness :
    run_linter ⟨"HEAD", "master"⟩ wtTest rcTest [] =
      Except.error LintError.notImplementedError ∧
    run_linter ⟨"HEAD", WORKTREE⟩ wtTest rcTest [] =
      Except.ok (lintLines wtTest rcTest none []) :=
  ⟨(run_linter_requires_worktree ⟨"HEAD", "master"⟩ wtTest rcTest []).1
      (by decide),
    (run_linter_requires_worktree ⟨"HEAD", WORKTREE⟩ wtTest rcTest []).2 rfl⟩

/-- C5: for a file that did not exist at `rev1` the old content is treated
as empty, so the edited-line set is every line 1..N of the new content,
and `run_linter` retains a diagnostic on any such line of the newly
created file. -/
theorem run_linter_new_file (content : List String) :
    editedLinenums none content 0 = List.range' 1 content.length ∧
    ∀ (rev1 : String) (wt rc : String → Option (List String))
      (l path : String) (line : Nat) (loc msg : String),
      parseDiag l = some (path, line, loc, msg) →
      wt path = some content →
      rc path = none →
      1 ≤ line → line ≤ content.length →
      run_linter ⟨rev1, WORKTREE⟩ wt rc [l] =
        Except.ok ⟨["", loc ++ " " ++ msg], [], 1⟩ := by
  refine ⟨editedLinenums_new_file content, ?_⟩
  intro rev1 wt rc l path line loc msg hp hw hrc h1 h2
  have he : (editedLinenums (rc path) content 0).contains line = true := by
    rw [hrc, editedLinenums_new_file content]
    exact (contains_range' 1 content.length line).mpr ⟨h1, by omega⟩
  have hstep := lintLines_cons_retained wt rc none l [] path line loc msg
    content hp hw he
  rw [run_linter, if_pos rfl, hstep]
  rfl

/-- Witness for C5: a diagnostic on line 1 of the new two-line file
`file2.py` is retained. -/
theorem run_linter_new_file_witness :
    run_linter ⟨"initial", WORKTREE⟩ wtNew rcNew ["file2.py:1: dummy"] =
      Except.ok ⟨["", "file2.py:1:" ++ " " ++ "dummy"], [], 1⟩ :=
  (run_linter_new_file ["1", "2"]).2 "initial" wtNew rcNew
    "file2.py:1: dummy" "file2.py" 1 "file2.py:1:" "dummy"
    (by decide) (by decide) rfl (by decide) (by decide)

/-- C6: the output of `run_linter` is the retained diagnostics with a
single blank line immediately before every new contiguous block (a
diagnostic not immediately adjacent to the previously retained one for the
same file) and exactly one blank line before the very first block; in the
concrete scenario of a fully edited six-line file with diagnostics on
lines 2–3 and 5–6, a blank line precedes the first block and one separates
the two blocks. -/
theorem run_linter_line_separation :
    (∀ (rev1 : String) (wt rc : String → Option (List String))
      (stdout : List String),
      run_linter ⟨rev1, WORKTREE⟩ wt rc stdout =
        Except.ok (lintLines wt rc none stdout) ∧
      (lintLines wt rc none stdout).output =
        renderWithSeparators none (retainedDiags wt rc stdout)) ∧
    run_linter ⟨"HEAD", WORKTREE⟩ wtSep rcSep
        ["a.py:2: first block", "a.py:3: of linter output",
          "a.py:5: second block", "a.py:6: of linter output"] =
      Except.ok ⟨["", "a.py:2: first block", "a.py:3: of linter output",
          "", "a.py:5: second block", "a.py:6: of linter output"],
        [], 4⟩ := by
  refine ⟨fun rev1 wt rc stdout => ⟨rfl, lintLines_output wt rc none stdout⟩, ?_⟩
  rfl

/-- C7: a linter stdout line with no recognizable leading
`path:line[:col]:` prefix (including a non-numeric line number) is dropped
silently: the parser returns the empty placeholder tuple, and `run_linter`
emits no output line, no warning and no count for it, continuing with the
rest of the stream. -/
theorem parse_failures_dropped_silently :
    (∀ l : String, parseDiag l = none →
      parse_linter_line l = ("", 0, "", "")) ∧
    parse_linter_line "no-linenum.py: Description" = ("", 0, "", "") ∧
    parse_linter_line "mod.py:invalid-linenum:5: Description" =
      ("", 0, "", "") ∧
    parse_linter_line "invalid linter output" = ("", 0, "", "") ∧
    ∀ (rev1 l : String) (wt rc : String → Option (List String))
      (rest : List String),
      parseDiag l = none →
      run_linter ⟨rev1, WORKTREE⟩ wt rc (l :: rest) =
        run_linter ⟨rev1, WORKTREE⟩ wt rc rest := by
  refine ⟨?_, by decide, by decide, by decide, ?_⟩
  · intro l h
    rw [parse_linter_line, h]
    rfl
  · intro rev1 l wt rc rest h
    rw [run_linter, if_pos rfl, run_linter, if_pos rfl,
      lintLines_cons_none wt rc none l rest h]

/-- Witness for C7 at a concrete unparseable line. -/
theorem parse_failures_dropped_silently_witness :
    parse_linter_line "invalid linter output" = ("", 0, "", "") ∧
    run_linter ⟨"HEAD", WORKTREE⟩ wtTest rcTest
        ["invalid linter output", "test.py:1: dummy"] =
      run_linter ⟨"HEAD", WORKTREE⟩ wtTest rcTest ["test.py:1: dummy"] :=
  ⟨parse_failures_dropped_silently.1 "invalid linter output" (by decide),
    parse_failures_dropped_silently.2.2.2.2 "HEAD" "invalid linter output"
      wtTest rcTest ["test.py:1: dummy"] (by decide)⟩

/-- C8: a parsed diagnostic referencing a path that is not present in the
worktree is dropped with a "Missing file" warning naming the path; it
contributes nothing to the output or the count, and the remaining linter
output is still processed. -/
theorem missing_file_warning (rev1 : String)
    (wt rc : String → Option (List String)) (l : String) (rest : List String)
    (path : String) (line : Nat) (loc msg : String)
    (hp : parseDiag l = some (path, line, loc, msg))
    (hw : wt path = none) :
    run_linter ⟨rev1, WORKTREE⟩ wt rc (l :: rest) =
      Except.ok ⟨(lintLines wt rc none rest).output,
        ("Missing file " ++ path) :: (lintLines wt rc none rest).warnings,
        (lintLines wt rc none rest).count⟩ := by
  rw [run_linter, if_pos rfl,
    lintLines_cons_missing wt rc none l rest path line loc msg hp hw]

/-- Witness for C8 at a concrete missing file. -/
theorem missing_file_warning_witness :
    run_linter ⟨"HEAD", WORKTREE⟩ rcNew rcNew ["missing.py:1: dummy"] =
      Except.ok ⟨(lintLines rcNew rcNew none []).output,
        ("Missing file " ++ "missing.py") ::
          (lintLines rcNew rcNew none []).warnings,
        (lintLines rcNew rcNew none []).count⟩ :=
  missing_file_warning "HEAD" rcNew rcNew "missing.py:1: dummy" []
    "missing.py" 1 "missing.py:1:" "dummy" (by decide) rfl

/-- C9: `apply_flynt` returns its input document unchanged — for every
fstringify function, so no transform is invoked — whenever the source path
matches an exclude pattern or the edited-line set versus `rev1` with
context 0 is empty. -/
theorem apply_flynt_unchanged_when_excluded_or_unedited
    (fstringify : String → Except DarkerError (String × Nat))
    (glob_any : String → List String → Bool)
    (content : TextDocument) (src : String) (exclude : List String)
    (differ : EditedLinenumsDiffer) :
    (glob_any src exclude = true →
      apply_flynt fstringify glob_any content src exclude differ =
        Except.ok content) ∧
    (differ.revision_vs_lines src content 0 = [] →
      apply_flynt fstringify glob_any content src exclude differ =
        Except.ok content) := by
  constructor
  · intro h
    rw [apply_flynt, if_pos h]
  · intro h
    rw [apply_flynt]
    by_cases hg : glob_any src exclude
    · rw [if_pos hg]
    · rw [if_neg hg, if_pos (by rw [h]; rfl)]

/-- Witness for C9: with the missing-flynt stub as the fstringify function
the result is still the unchanged document, both under an exclude match
and under an empty edited-line set. -/
theorem apply_flynt_unchanged_witness :
    apply_flynt flynt_fstringify_code_by_line (fun _ _ => true) docA
      "a.py" ["*.py"] differSame = Except.ok docA ∧
    apply_flynt flynt_fstringify_code_by_line (fun _ _ => false) docA
      "a.py" [] differSame = Except.ok docA :=
  ⟨(apply_flynt_unchanged_when_excluded_or_unedited
      flynt_fstringify_code_by_line (fun _ _ => true) docA "a.py" ["*.py"]
      differSame).1 rfl,
    (apply_flynt_unchanged_when_excluded_or_unedited
      flynt_fstringify_code_by_line (fun _ _ => false) docA "a.py" []
      differSame).2 (by decide)⟩

/-- C10: with the flynt package missing, `apply_flynt` fails with a
`MissingPackageError` naming the missing 'flynt' module and instructing to
install the 'flynt' package before using the --flynt / -i option — but
only when the transform is actually invoked, i.e. on a non-excluded file
with a non-empty edited-line set; otherwise the document is returned
unchanged and no error is raised. -/
theorem flynt_missing_package_error
    (glob_any : String → List String → Bool)
    (content : TextDocument) (src : String) (exclude : List String)
    (differ : EditedLinenumsDiffer) :
    (glob_any src exclude = false →
      differ.revision_vs_lines src content 0 ≠ [] →
      apply_flynt flynt_fstringify_code_by_line glob_any content src
          exclude differ =
        Except.error (DarkerError.missingPackageError
          ("No module named 'flynt'. Please install the 'flynt' package"
            ++ " before using the --flynt / -i option."))) ∧
    ((glob_any src exclude = true ∨
        differ.revision_vs_lines src content 0 = []) →
      apply_flynt flynt_fstringify_code_by_line glob_any content src
          exclude differ = Except.ok content) := by
  constructor
  · intro hg he
    rw [apply_flynt, if_neg (by rw [hg]; exact Bool.false_ne_true),
      if_neg (by simpa [List.isEmpty_iff] using he)]
    rfl
  · intro h
    cases h with
    | inl hg =>
      exact (apply_flynt_unchanged_when_excluded_or_unedited
        flynt_fstringify_code_by_line glob_any content src exclude differ).1 hg
    | inr he =>
      exact (apply_flynt_unchanged_when_excluded_or_unedited
        flynt_fstringify_code_by_line glob_any content src exclude differ).2 he

/-- Witness for C10: on a non-excluded document that is new relative to
`rev1` (all lines edited) the missing-flynt stub error surfaces, while an
excluded document is returned unchanged. -/
theorem flynt_missing_package_error_witness :
    apply_flynt flynt_fstringify_code_by_line (fun _ _ => false) docA
        "a.py" [] differNew =
      Except.error (DarkerError.missingPackageError
        ("No module named 'flynt'. Please install the 'flynt' package"
          ++ " before using the --flynt / -i option.")) ∧
    apply_flynt flynt_fstringify_code_by_line (fun _ _ => true) docA
        "a.py" [] differNew = Except.ok docA :=
  ⟨(flynt_missing_package_error (fun _ _ => false) docA "a.py" []
      differNew).1 rfl (by decide),
    (flynt_missing_package_error (fun _ _ => true) docA "a.py" []
      differNew).2 (Or.inl rfl)⟩

end Darker
